import Mathlib

/-!
Verification of the analytics and scoring engine of the UK investment
strategy repository.

The development shallowly embeds the computational core of
`uk_investment_strategy.py` and `app.py` into Lean:

* price series are lists of exact rationals (`List ℚ`), standing for the
  IEEE doubles of the source (every double is a rational);
* the square root `np.sqrt` is an abstract parameter `sq : ℚ → ℚ`
  (IEEE `sqrt` maps doubles to doubles, hence rationals to rationals);
  theorems assume of it only what they need, e.g. `sq 0 = 0`;
* a float expression that the source lets become non-finite
  (`NaN` from `0.0/0.0` with `ddof=1` or an unguarded `mean/std`,
  `inf` from `x/0`) is modelled by `Option ℚ`, with `none` for the
  non-finite outcome;
* Python dictionaries are association lists in insertion order
  (re-inserting an existing key keeps its position and overwrites its
  value, as Python dictionaries do);
* the external collaborators (market data fetch, ticker search fallback)
  are function parameters.
-/

/-- Python `str.lower` restricted to the ASCII data the tables hold. -/
def pyLower (s : List Char) : List Char := s.map Char.toLower

/-- Python `str.strip`: drop whitespace from both ends. -/
def pyStrip (s : List Char) : List Char :=
  (((s.dropWhile Char.isWhitespace).reverse).dropWhile Char.isWhitespace).reverse

/-- Boolean prefix test on character lists. -/
def isPrefixB : List Char → List Char → Bool
  | [], _ => true
  | _ :: _, [] => false
  | a :: as, b :: bs => a == b && isPrefixB as bs

/-- Boolean contiguous-substring test, Python's `in` on strings. -/
def isSubstrB : List Char → List Char → Bool
  | a, [] => isPrefixB a []
  | a, b :: bs => isPrefixB a (b :: bs) || isSubstrB a bs

/-- `np.mean` of a list of values (the guarded call sites never pass `[]`). -/
def npMean (l : List ℚ) : ℚ := l.sum / l.length

/-- Python `dict.get(key, default)` on an association list. -/
def lookupD {α : Type} : List (String × α) → String → α → α
  | [], _, d => d
  | (k', v) :: rest, k, d => if k = k' then v else lookupD rest k d

/-- `series.min()` of a pandas series, `none` on an empty series. -/
def listMinQ : List ℚ → Option ℚ
  | [] => none
  | x :: xs => some (xs.foldl min x)

/-- Tail recursion of `expanding().max()` with the running maximum `m`. -/
def expandingMaxFrom (m : ℚ) : List ℚ → List ℚ
  | [] => []
  | c :: cs => max m c :: expandingMaxFrom (max m c) cs

/-- pandas `Close.expanding().max()`: the prefix maxima of the series. -/
def expandingMax : List ℚ → List ℚ
  | [] => []
  | c :: cs => expandingMaxFrom c (c :: cs)

/-- pandas `Close.pct_change().dropna()`: simple returns between
consecutive closes, `r_t = close_t / close_(t-1) - 1`. -/
def pct_change (closes : List ℚ) : List ℚ :=
  List.zipWith (fun prev cur => cur / prev - 1) closes closes.tail

/-- pandas `Series.std()` squared: the sample variance with `ddof=1`.
With fewer than two points the float result is `NaN`, modelled `none`. -/
def sampleVariance (l : List ℚ) : Option ℚ :=
  if 2 ≤ l.length then
    some ((l.map (fun r => (r - npMean l) ^ 2)).sum / ((l.length : ℚ) - 1))
  else none

/-- pandas `Series.std()` with `ddof=1`, via the abstract square root. -/
def sampleStd (sq : ℚ → ℚ) (l : List ℚ) : Option ℚ := (sampleVariance l).map sq

/-- The statistics record built by `calculate_statistics` in `app.py`.
`none` in an `Option`-valued field is a non-finite float. -/
structure AppStats where
  meanDailyPct : ℚ
  stdevDailyPct : Option ℚ
  annualizedReturnPct : ℚ
  annualizedVolPct : Option ℚ
  sharpe : Option ℚ
  minDailyPct : ℚ
  maxDailyPct : ℚ
  totalReturnPct : ℚ
deriving Repr

/-- `calculate_statistics` of `app.py` (lines 57-72): given the return
series it returns `None` when the series is empty and the statistics
record otherwise.  The Sharpe ratio `(returns.mean()/returns.std()) *
np.sqrt(252)` is written with no guard on `returns.std()`: a zero
standard deviation makes the float quotient non-finite (`0.0/0.0 = NaN`,
`x/0.0 = ±inf`), modelled by `none`; a one-point series already has
`std = NaN`, which propagates. -/
def calculate_statistics (sq : ℚ → ℚ) (returns : List ℚ) : Option AppStats :=
  match returns with
  | [] => none
  | r :: rs =>
    some {
      meanDailyPct := npMean (r :: rs) * 100
      stdevDailyPct := (sampleStd sq (r :: rs)).map (· * 100)
      annualizedReturnPct := npMean (r :: rs) * 252 * 100
      annualizedVolPct := (sampleStd sq (r :: rs)).map (fun s => s * sq 252 * 100)
      sharpe := (sampleStd sq (r :: rs)).bind
        (fun s => if s = 0 then none else some (npMean (r :: rs) / s * sq 252))
      minDailyPct := (rs.foldl min r) * 100
      maxDailyPct := (rs.foldl max r) * 100
      totalReturnPct := (((r :: rs).map (· + 1)).prod - 1) * 100 }

/-- The `geopolitical_risk_factors` class constant (unused downstream). -/
def geopolitical_risk_factors : List (String × ℚ) :=
  [("Brexit Impact", 0.8), ("EU Relations", 0.7), ("US-UK Relations", 0.6),
   ("Global Trade Tensions", 0.9), ("Energy Security", 0.8),
   ("Financial Services Regulation", 0.7)]

/-- The `brexit_impact` table of `calculate_geopolitical_risk_score`. -/
def brexit_impact : List (String × ℚ) :=
  [("Trade Relations", 0.7), ("Financial Services", 0.8),
   ("Labor Market", 0.6), ("Regulatory Environment", 0.7)]

/-- The `eu_relations` table of `calculate_geopolitical_risk_score`. -/
def eu_relations : List (String × ℚ) :=
  [("Trade Agreements", 0.6), ("Financial Passporting", 0.8),
   ("Regulatory Alignment", 0.7), ("Political Cooperation", 0.5)]

/-- The `global_trade` table of `calculate_geopolitical_risk_score`. -/
def global_trade : List (String × ℚ) :=
  [("US-China Relations", 0.8), ("Supply Chain Disruption", 0.9),
   ("Commodity Prices", 0.7), ("Currency Volatility", 0.6)]

/-- `calculate_geopolitical_risk_score` (lines 67-98): the geopolitical
base factor table, each entry the `np.mean` of a fixed sub-table. -/
def calculate_geopolitical_risk_score : List (String × ℚ) :=
  [("Brexit Impact", npMean (brexit_impact.map Prod.snd)),
   ("EU Relations", npMean (eu_relations.map Prod.snd)),
   ("Global Trade Tensions", npMean (global_trade.map Prod.snd))]

/-- The `manufacturing` table of `analyze_supply_chain_dynamics`. -/
def manufacturing_metrics : List (String × ℚ) :=
  [("Capacity Utilization", 0.75), ("Input Cost Inflation", 0.8),
   ("Lead Times", 0.7), ("Inventory Levels", 0.6)]

/-- The `services` table of `analyze_supply_chain_dynamics`. -/
def services_metrics : List (String × ℚ) :=
  [("Digital Infrastructure", 0.6), ("Skilled Labor Availability", 0.7),
   ("Regulatory Compliance", 0.5), ("International Competition", 0.8)]

/-- The `energy` table of `analyze_supply_chain_dynamics`. -/
def energy_metrics : List (String × ℚ) :=
  [("Energy Security", 0.8), ("Price Volatility", 0.9),
   ("Infrastructure Investment", 0.6), ("Green Transition", 0.7)]

/-- `analyze_supply_chain_dynamics` (lines 100-131): sector-keyed supply
chain metric tables; only three sectors have an entry. -/
def analyze_supply_chain_dynamics : List (String × List (String × ℚ)) :=
  [("Manufacturing", manufacturing_metrics),
   ("Services", services_metrics),
   ("Energy", energy_metrics)]

/-- The `fdi_factors` table of `evaluate_capital_flows`. -/
def fdi_factors : List (String × ℚ) :=
  [("Political Stability", 0.6), ("Regulatory Environment", 0.7),
   ("Market Access", 0.8), ("Infrastructure Quality", 0.7)]

/-- The `portfolio_factors` table of `evaluate_capital_flows`. -/
def portfolio_factors : List (String × ℚ) :=
  [("Market Liquidity", 0.8), ("Currency Stability", 0.6),
   ("Interest Rate Environment", 0.7), ("Economic Growth Prospects", 0.6)]

/-- The `currency_factors` table of `evaluate_capital_flows`. -/
def currency_factors : List (String × ℚ) :=
  [("Trade Balance", 0.7), ("Interest Rate Differential", 0.6),
   ("Political Risk", 0.7), ("Economic Fundamentals", 0.6)]

/-- `evaluate_capital_flows` (lines 133-164): the capital flow base
factor table, each entry the `np.mean` of a fixed sub-table. -/
def evaluate_capital_flows : List (String × ℚ) :=
  [("FDI Attractiveness", npMean (fdi_factors.map Prod.snd)),
   ("Portfolio Investment", npMean (portfolio_factors.map Prod.snd)),
   ("Currency Strength", npMean (currency_factors.map Prod.snd))]

/-- The `sector_adjustments` table of `calculate_company_geopolitical_risk`. -/
def geo_sector_adjustments : List (String × ℚ) :=
  [("Financial Services", 1.2), ("Technology", 0.8), ("Healthcare", 0.9),
   ("Energy", 1.1), ("Manufacturing", 1.0), ("Retail", 0.9),
   ("Real Estate", 0.8), ("Consumer Goods", 0.9), ("Mining", 1.1),
   ("Telecommunications", 0.9), ("Transportation", 1.0)]

/-- `calculate_company_geopolitical_risk` (lines 634-659): each base
score is multiplied by the sector multiplier (default `1.0`) and capped
with `min(1.0, ...)`. -/
def calculate_company_geopolitical_risk (sector : String) : List (String × ℚ) :=
  let adjustment := lookupD geo_sector_adjustments sector 1.0
  calculate_geopolitical_risk_score.map (fun p => (p.1, min 1.0 (p.2 * adjustment)))

/-- The `company_factors` dictionary of `calculate_company_supply_chain_risk`. -/
def company_specific_factors : List (String × ℚ) :=
  [("International Exposure", 0.7), ("Supply Chain Complexity", 0.6),
   ("Digital Transformation", 0.5), ("Domestic Sourcing", 0.4)]

/-- `calculate_company_supply_chain_risk` (lines 661-679): the sector's
supply chain metrics (empty for a sector with no entry) merged with the
fixed company factors; `{**sector_metrics, **company_factors}` keeps the
sector keys first, and the key sets are disjoint.  No multiplier and no
clamp are applied. -/
def calculate_company_supply_chain_risk (sector : String) : List (String × ℚ) :=
  lookupD analyze_supply_chain_dynamics sector [] ++ company_specific_factors

/-- The `sector_adjustments` table of `calculate_company_capital_flow_risk`. -/
def capital_sector_adjustments : List (String × ℚ) :=
  [("Financial Services", 1.1), ("Technology", 0.9), ("Healthcare", 0.8),
   ("Energy", 1.0), ("Manufacturing", 1.0), ("Retail", 0.9),
   ("Real Estate", 1.2), ("Consumer Goods", 0.9), ("Mining", 1.1),
   ("Telecommunications", 1.0), ("Transportation", 1.0)]

/-- `calculate_company_capital_flow_risk` (lines 681-706): each base
score is multiplied by the sector multiplier (default `1.0`) and capped
with `min(1.0, ...)`. -/
def calculate_company_capital_flow_risk (sector : String) : List (String × ℚ) :=
  let adjustment := lookupD capital_sector_adjustments sector 1.0
  evaluate_capital_flows.map (fun p => (p.1, min 1.0 (p.2 * adjustment)))

/-- The financial metrics record of `calculate_financial_metrics`.
`none` in an `Option`-valued field is a non-finite float. -/
structure FinancialMetrics where
  currentPrice : ℚ
  priceChangePct : ℚ
  volatilityPct : Option ℚ
  annualizedReturnPct : ℚ
  sharpe : ℚ
  maxDrawdownPct : Option ℚ
deriving Repr

/-- pandas `((Close / Close.expanding().max() - 1) * 100).min()`, the
`'Max Drawdown (%)'` entry of `calculate_financial_metrics` (line 722):
the percent drawdown series against the running maximum, minimised. -/
def ukMaxDrawdownPct (closes : List ℚ) : Option ℚ :=
  listMinQ (List.zipWith (fun c m => (c / m - 1) * 100) closes (expandingMax closes))

/-- Modelled from the spec (section 4.1), for comparison with
`ukMaxDrawdownPct`: `max_drawdown = min over t of
(close_t / running_max(close_0..close_t) - 1)`, kept as a fraction. -/
def specMaxDrawdownFrac (closes : List ℚ) : Option ℚ :=
  listMinQ (List.zipWith (fun c m => c / m - 1) closes (expandingMax closes))

/-- The body of `calculate_financial_metrics` (lines 708-725) on a
non-empty price series `c :: cs`.  The Sharpe entry is guarded by
`not returns.empty and returns.std() > 0` — a `NaN` standard deviation
(one return) fails the float comparison, so the guard also sends it to
`0`.  The volatility entry is `NaN` for a single return. -/
def financialMetricsNE (sq : ℚ → ℚ) (c : ℚ) (cs : List ℚ) : FinancialMetrics :=
  let data := c :: cs
  let returns := pct_change data
  { currentPrice := (data.getLast?).getD 0
    priceChangePct :=
      match data.reverse with
      | las :: prev :: _ => (las - prev) / prev * 100
      | _ => 0
    volatilityPct :=
      match returns with
      | [] => some 0
      | _ :: _ => (sampleStd sq returns).map (· * 100)
    annualizedReturnPct :=
      match returns with
      | [] => 0
      | _ :: _ => npMean returns * 252 * 100
    sharpe :=
      match sampleStd sq returns with
      | some s => if returns ≠ [] ∧ 0 < s then npMean returns / s * sq 252 else 0
      | none => 0
    maxDrawdownPct := ukMaxDrawdownPct data }

/-- `calculate_financial_metrics` (lines 708-725): the empty dictionary
(`none`) on an empty series, the metrics record otherwise. -/
def calculate_financial_metrics (sq : ℚ → ℚ) (closes : List ℚ) : Option FinancialMetrics :=
  match closes with
  | [] => none
  | c :: cs => some (financialMetricsNE sq c cs)

/-- The recommendation record of `generate_company_recommendation`. -/
structure Recommendation where
  overall_risk_score : ℚ
  label : String
  confidence : String
  key_insights : List String
  risk_breakdown : ℚ × ℚ × ℚ
deriving Repr

/-- `generate_company_recommendation` (lines 727-772): averages the
three score mappings, weights them `0.4 / 0.3 / 0.3`, picks the label
and confidence by the `< 0.4 / < 0.6 / < 0.8 / else` chain (the source
assigns both in one `if` chain; here each field carries the same chain),
and appends one insight per average above `0.7`, in the fixed order. -/
def generate_company_recommendation
    (geopolitical_risk supply_chain_risk capital_flow_risk : List (String × ℚ)) :
    Recommendation :=
  let avgGeo := npMean (geopolitical_risk.map Prod.snd)
  let avgSupply := npMean (supply_chain_risk.map Prod.snd)
  let avgCapital := npMean (capital_flow_risk.map Prod.snd)
  let overall := avgGeo * 0.4 + avgSupply * 0.3 + avgCapital * 0.3
  { overall_risk_score := overall
    label :=
      if overall < 0.4 then ("Strong Buy")
      else if overall < 0.6 then ("Buy")
      else if overall < 0.8 then ("Hold")
      else ("Sell")
    confidence :=
      if overall < 0.4 then ("High")
      else if overall < 0.6 then ("Medium")
      else if overall < 0.8 then ("Medium")
      else ("High")
    key_insights :=
      (if avgGeo > 0.7 then [("High geopolitical risk exposure")] else []) ++
      (if avgSupply > 0.7 then [("Supply chain vulnerabilities identified")] else []) ++
      (if avgCapital > 0.7 then [("Sensitive to capital flow changes")] else [])
    risk_breakdown := (avgGeo, avgSupply, avgCapital) }

/-- Rank of a recommendation label, best (`Strong Buy`) to worst (`Sell`). -/
def labelRank : String → ℕ
  | "Strong Buy" => 0
  | "Buy" => 1
  | "Hold" => 2
  | _ => 3

/-- `generate_company_recommendation` fed three singleton mappings whose
single score is `x`; its overall score is then exactly `x`, which lets
the threshold behaviour be stated for every overall score. -/
def recAt (x : ℚ) : Recommendation :=
  generate_company_recommendation [(("g"), x)] [(("s"), x)] [(("c"), x)]

/-- The `uk_companies` dictionary of `find_company_ticker` (lines
281-518), as the association list Python dictionary semantics produces:
keys keep the position of their first insertion and carry the value of
their last assignment (the source re-inserts several keys, e.g.
`nintendo` and `sony`, and repeats a whole block verbatim). -/
def uk_companies : List (String × String) := [
  ("hsbc", "HSBC.L"),
  ("barclays", "BARC.L"),
  ("lloyds", "LLOY.L"),
  ("rbs", "RBS.L"),
  ("natwest", "NWG.L"),
  ("unilever", "ULVR.L"),
  ("glaxosmithkline", "GSK.L"),
  ("astrazeneca", "AZN.L"),
  ("bp", "BP.L"),
  ("shell", "SHEL.L"),
  ("royal dutch shell", "SHEL.L"),
  ("british american tobacco", "BATS.L"),
  ("imperial brands", "IMB.L"),
  ("diageo", "DGE.L"),
  ("rio tinto", "RIO.L"),
  ("bhp", "BHP.L"),
  ("anglo american", "AAL.L"),
  ("glencore", "GLEN.L"),
  ("vodafone", "VOD.L"),
  ("bt", "BT-A.L"),
  ("british telecom", "BT-A.L"),
  ("centrica", "CNA.L"),
  ("national grid", "NG.L"),
  ("ssp", "SSPG.L"),
  ("sage", "SGE.L"),
  ("just eat", "JET.L"),
  ("deliveroo", "ROO.L"),
  ("ocado", "OCDO.L"),
  ("asos", "ASC.L"),
  ("boohoo", "BOO.L"),
  ("next", "NXT.L"),
  ("marks and spencer", "MKS.L"),
  ("tesco", "TSCO.L"),
  ("sainsbury", "SBRY.L"),
  ("morrisons", "MRW.L"),
  ("persimmon", "PSN.L"),
  ("barratt", "BDEV.L"),
  ("taylor wimpey", "TW.L"),
  ("berkeley", "BKG.L"),
  ("land securities", "LAND.L"),
  ("british land", "BLND.L"),
  ("segro", "SGRO.L"),
  ("rightmove", "RMV.L"),
  ("zoopla", "ZPLA.L"),
  ("autotrader", "AUTO.L"),
  ("halma", "HLMA.L"),
  ("spirax sarco", "SPX.L"),
  ("renishaw", "RSW.L"),
  ("weir", "WEIR.L"),
  ("melrose", "MRO.L"),
  ("rolls royce", "RR.L"),
  ("bae systems", "BA.L"),
  ("cobham", "COB.L"),
  ("g4s", "GFS.L"),
  ("serco", "SRP.L"),
  ("capita", "CPI.L"),
  ("mitie", "MTO.L"),
  ("compass", "CPG.L"),
  ("whitbread", "WTB.L"),
  ("intercontinental hotels", "IHG.L"),
  ("easyjet", "EZJ.L"),
  ("international airlines group", "IAG.L"),
  ("ryanair", "RYA.L"),
  ("wizz air", "WIZZ.L"),
  ("carnival", "CCL.L"),
  ("tui", "TUI.L"),
  ("thomas cook", "TCG.L"),
  ("sports direct", "SPD.L"),
  ("jd sports", "JD.L"),
  ("frasers", "FRAS.L"),
  ("superdry", "SDRY.L"),
  ("ted baker", "TED.L"),
  ("burberry", "BRBY.L"),
  ("mulberry", "MUL.L"),
  ("jimmy choo", "CHOO.L"),
  ("missguided", "MGID.L"),
  ("pretty little thing", "PLT.L"),
  ("na-kd", "NAKD.L"),
  ("revolve", "RVLV.L"),
  ("stitch fix", "SFIX.L"),
  ("wayfair", "W.L"),
  ("etsy", "ETSY.L"),
  ("shopify", "SHOP.L"),
  ("square", "SQ.L"),
  ("stripe", "STRIPE.L"),
  ("klarna", "KLARNA.L"),
  ("monzo", "MONZO.L"),
  ("revolut", "REVOLUT.L"),
  ("transferwise", "WISE.L"),
  ("wise", "WISE.L"),
  ("checkout.com", "CHECKOUT.L"),
  ("rapyd", "RAPYD.L"),
  ("go cardless", "GOCARDLESS.L"),
  ("sumup", "SUMUP.L"),
  ("worldpay", "WP.L"),
  ("nortonlifelock", "NLOK.L"),
  ("avast", "AVST.L"),
  ("kaspersky", "KASPERSKY.L"),
  ("trend micro", "TMIC.L"),
  ("crowdstrike", "CRWD.L"),
  ("palo alto networks", "PANW.L"),
  ("fortinet", "FTNT.L"),
  ("check point", "CHKP.L"),
  ("symantec", "SYMC.L"),
  ("mcafee", "MCFE.L"),
  ("bitdefender", "BITDEFENDER.L"),
  ("malwarebytes", "MALWAREBYTES.L"),
  ("eset", "ESET.L"),
  ("sophos", "SOPHOS.L"),
  ("f-secure", "F-SECURE.L"),
  ("bullguard", "BULLGUARD.L"),
  ("avg", "AVG.L"),
  ("avira", "AVIRA.L"),
  ("norton", "NORTON.L"),
  ("microsoft", "MSFT"),
  ("apple", "AAPL"),
  ("google", "GOOGL"),
  ("alphabet", "GOOGL"),
  ("amazon", "AMZN"),
  ("facebook", "META"),
  ("meta", "META"),
  ("netflix", "NFLX"),
  ("tesla", "TSLA"),
  ("nvidia", "NVDA"),
  ("amd", "AMD"),
  ("intel", "INTC"),
  ("qualcomm", "QCOM"),
  ("broadcom", "AVGO"),
  ("cisco", "CSCO"),
  ("oracle", "ORCL"),
  ("salesforce", "CRM"),
  ("adobe", "ADBE"),
  ("paypal", "PYPL"),
  ("visa", "V"),
  ("mastercard", "MA"),
  ("american express", "AXP"),
  ("discovery", "DISCA"),
  ("warner bros", "WBD"),
  ("paramount", "PARA"),
  ("comcast", "CMCSA"),
  ("verizon", "VZ"),
  ("at&t", "T"),
  ("att", "T"),
  ("t-mobile", "TMUS"),
  ("sprint", "S"),
  ("charter", "CHTR"),
  ("cablevision", "CVC"),
  ("time warner", "TWX"),
  ("viacom", "VIAB"),
  ("cbs", "CBS"),
  ("fox", "FOX"),
  ("news corp", "NWSA"),
  ("21st century fox", "FOXA"),
  ("disney", "DIS"),
  ("pixar", "PIXAR"),
  ("marvel", "MARVEL"),
  ("lucasfilm", "LUCASFILM"),
  ("star wars", "STARWARS"),
  ("dreamworks", "DWA"),
  ("universal", "CMCSA"),
  ("sony", "6758.T"),
  ("nintendo", "7974.T"),
  ("electronic arts", "EA"),
  ("activision blizzard", "ATVI"),
  ("take two", "TTWO"),
  ("ubisoft", "UBI.PA"),
  ("capcom", "9697.T"),
  ("konami", "9766.T"),
  ("sega", "6460.T"),
  ("bandai namco", "7832.T"),
  ("square enix", "9684.T")]

/-- The normalisation `company_name.lower().strip()` of
`find_company_ticker` (line 521), on character lists. -/
def normalizeQuery (name : String) : List Char := pyStrip (pyLower name.data)

/-- The match test of the alias loop (line 523):
`company_lower in name or name in company_lower`, bidirectional
substring containment. -/
def matchesKey (q : List Char) (key : String) : Bool :=
  isSubstrB q key.data || isSubstrB key.data q

/-- The alias loop of `find_company_ticker` (lines 522-524): the first
entry whose key matches wins. -/
def aliasLookup (q : List Char) : List (String × String) → Option String
  | [] => none
  | (key, ticker) :: rest =>
    if matchesKey q key then some ticker else aliasLookup q rest

/-- `find_company_ticker` (lines 278-534): normalise the query, scan the
alias table, and otherwise fall back on the external ticker search,
taking its first candidate; `None` when both fail.  The fallback is the
external collaborator, passed as the parameter `search`. -/
def find_company_ticker (search : String → List String) (name : String) : Option String :=
  match aliasLookup (normalizeQuery name) uk_companies with
  | some ticker => some ticker
  | none => (search name).head?

/-- The membership test `any(word in company_lower for word in [...])`
of `determine_company_sector`. -/
def containsAny (cl : List Char) (words : List String) : Bool :=
  words.any (fun w => isSubstrB w.data cl)

/-- `determine_company_sector` (lines 583-632): case-insensitive keyword
chain over the lowercased company name; the provider metadata argument
is never read by the source, so it is omitted.  The `Technology` keyword
list repeats `sage`, as the source does. -/
def determine_company_sector (company_name : String) : String :=
  let cl := pyLower company_name.data
  if containsAny cl [("bank"), ("hsbc"), ("barclays"), ("lloyds"), ("rbs"), ("natwest"), ("finance"), ("insurance")] then ("Financial Services")
  else if containsAny cl [("tech"), ("software"), ("digital"), ("ai"), ("cyber"), ("fintech"), ("sage"), ("sage")] then ("Technology")
  else if containsAny cl [("pharma"), ("health"), ("medical"), ("biotech"), ("glaxo"), ("astra"), ("gsk"), ("azn")] then ("Healthcare")
  else if containsAny cl [("oil"), ("gas"), ("energy"), ("bp"), ("shell"), ("centrica"), ("national grid")] then ("Energy")
  else if containsAny cl [("manufacturing"), ("industrial"), ("engineering"), ("rolls"), ("bae"), ("weir")] then ("Manufacturing")
  else if containsAny cl [("retail"), ("shop"), ("store"), ("tesco"), ("sainsbury"), ("morrisons"), ("asos"), ("boohoo")] then ("Retail")
  else if containsAny cl [("property"), ("real estate"), ("land"), ("berkeley"), ("barratt"), ("persimmon")] then ("Real Estate")
  else if containsAny cl [("consumer"), ("unilever"), ("diageo"), ("british american tobacco"), ("imperial")] then ("Consumer Goods")
  else if containsAny cl [("mining"), ("rio tinto"), ("bhp"), ("anglo american"), ("glencore")] then ("Mining")
  else if containsAny cl [("telecom"), ("vodafone"), ("bt"), ("british telecom")] then ("Telecommunications")
  else if containsAny cl [("airline"), ("easyjet"), ("british airways"), ("transport")] then ("Transportation")
  else ("Other")

/-- The assembled analysis record of `perform_company_analysis`. -/
structure CompanyAnalysis where
  company_name : String
  ticker : String
  sector : String
  geopolitical_risk : List (String × ℚ)
  supply_chain_risk : List (String × ℚ)
  capital_flow_risk : List (String × ℚ)
  financial_metrics : FinancialMetrics
  recommendation : Recommendation
  price_data : List ℚ
deriving Repr

/-- `perform_company_analysis` (lines 548-581): an error dictionary on
empty data, otherwise the complete analysis record.  The provider `info`
dictionary is never read by any callee, so it is omitted. -/
def perform_company_analysis (sq : ℚ → ℚ) (company_name ticker : String)
    (data : List ℚ) : Except String CompanyAnalysis :=
  match data with
  | [] => .error ("No data available for analysis")
  | c :: cs =>
    let sector := determine_company_sector company_name
    let geo := calculate_company_geopolitical_risk sector
    let supply := calculate_company_supply_chain_risk sector
    let capital := calculate_company_capital_flow_risk sector
    let metrics := financialMetricsNE sq c cs
    let recommended := generate_company_recommendation geo supply capital
    .ok ⟨company_name, ticker, sector, geo, supply, capital, metrics, recommended, c :: cs⟩

/-- `analyze_company` (lines 256-276): resolve the ticker (`if not
ticker` also rejects an empty string), fetch the price history through
the external collaborator `fetch`, stop with an error dictionary when
either step fails, and otherwise run the full analysis. -/
def analyze_company (sq : ℚ → ℚ) (search : String → List String)
    (fetch : String → List ℚ) (company_name : String) : Except String CompanyAnalysis :=
  match find_company_ticker search company_name with
  | none => .error ("Could not find ticker for company: " ++ company_name)
  | some ticker =>
    if ticker = "" then .error ("Could not find ticker for company: " ++ company_name)
    else
      let data := fetch ticker
      if data = [] then .error ("Could not fetch data for " ++ ticker)
      else perform_company_analysis sq company_name ticker data

/-- Whether an orchestrator result is a success. -/
def exceptOk {ε α : Type} : Except ε α → Bool
  | .ok _ => true
  | .error _ => false

/-- The mean of a non-empty list of values in `[0,1]` is in `[0,1]`. -/
theorem npMean_bounds (l : List ℚ) (hne : l ≠ [])
    (hb : ∀ x ∈ l, 0 ≤ x ∧ x ≤ 1) : 0 ≤ npMean l ∧ npMean l ≤ 1 := by
  have hlen : 0 < (l.length : ℚ) := by
    exact_mod_cast List.length_pos.mpr hne
  have hsum0 : 0 ≤ l.sum := List.sum_nonneg (fun x hx => (hb x hx).1)
  have hsum1 : l.sum ≤ (l.length : ℚ) := by
    have := List.sum_le_card_nsmul l 1 (fun x hx => (hb x hx).2)
    simpa using this
  constructor
  · exact div_nonneg hsum0 hlen.le
  · rw [npMean, div_le_one hlen]
    exact hsum1

/-- A default lookup either returns the default or a value of the table. -/
theorem lookupD_eq_or_mem {α : Type} (tbl : List (String × α)) (k : String) (d : α) :
    lookupD tbl k d = d ∨ lookupD tbl k d ∈ tbl.map Prod.snd := by
  induction tbl with
  | nil => left; rfl
  | cons p rest ih =>
    rcases p with ⟨k', v⟩
    by_cases h : k = k'
    · right
      simp [lookupD, h]
    · rcases ih with ih | ih
      · left
        simpa [lookupD, h] using ih
      · right
        simp [lookupD, h]
        right
        simpa using ih

/-- The geopolitical sector multiplier is positive for every sector. -/
theorem geo_adjustment_pos (s : String) : 0 < lookupD geo_sector_adjustments s 1.0 := by
  have h := lookupD_eq_or_mem geo_sector_adjustments s 1.0
  revert h
  generalize lookupD geo_sector_adjustments s 1.0 = a
  intro h
  rcases h with h | h
  · rw [h]; norm_num
  · simp only [geo_sector_adjustments, List.map_cons, List.map_nil] at h
    fin_cases h <;> norm_num

/-- The capital flow sector multiplier is positive for every sector. -/
theorem capital_adjustment_pos (s : String) : 0 < lookupD capital_sector_adjustments s 1.0 := by
  have h := lookupD_eq_or_mem capital_sector_adjustments s 1.0
  revert h
  generalize lookupD capital_sector_adjustments s 1.0 = a
  intro h
  rcases h with h | h
  · rw [h]; norm_num
  · simp only [capital_sector_adjustments, List.map_cons, List.map_nil] at h
    fin_cases h <;> norm_num

/-- Scaling a table of non-negative scores by a positive multiplier and
capping with `min 1` lands every value in `[0,1]`. -/
theorem scaled_clamped_bounds (base : List (String × ℚ)) (m : ℚ) (hm : 0 < m)
    (hb : ∀ p ∈ base, 0 ≤ p.2) :
    ∀ p ∈ base.map (fun q => (q.1, min 1.0 (q.2 * m))), 0 ≤ p.2 ∧ p.2 ≤ 1 := by
  intro p hp
  simp only [List.mem_map] at hp
  obtain ⟨q, hq, rfl⟩ := hp
  constructor
  · exact le_min (by norm_num) (mul_nonneg (hb q hq) hm.le)
  · exact le_trans (min_le_left _ _) (by norm_num)

/-- The geopolitical base scores are non-negative. -/
theorem geo_base_nonneg : ∀ p ∈ calculate_geopolitical_risk_score, 0 ≤ p.2 := by
  intro p hp
  simp [calculate_geopolitical_risk_score, npMean, brexit_impact, eu_relations,
    global_trade] at hp
  rcases hp with h | h | h <;> rw [h] <;> norm_num

/-- The capital flow base scores are non-negative. -/
theorem capital_base_nonneg : ∀ p ∈ evaluate_capital_flows, 0 ≤ p.2 := by
  intro p hp
  simp [evaluate_capital_flows, npMean, fdi_factors, portfolio_factors,
    currency_factors] at hp
  rcases hp with h | h | h <;> rw [h] <;> norm_num

/-- C10: for every sector other than Manufacturing, Services and Energy
(so for Financial Services, Technology, Retail, Other, ...), the supply
chain risk mapping is exactly the four fixed company factors, and its
average is `0.55`. -/
theorem C10_supply_chain_default_sector (sector : String)
    (h1 : sector ≠ "Manufacturing") (h2 : sector ≠ "Services") (h3 : sector ≠ "Energy") :
    calculate_company_supply_chain_risk sector = company_specific_factors ∧
    npMean ((calculate_company_supply_chain_risk sector).map Prod.snd) = 0.55 := by
  have htbl : lookupD analyze_supply_chain_dynamics sector [] = [] := by
    simp [analyze_supply_chain_dynamics, lookupD, h1, h2, h3]
  constructor
  · simp [calculate_company_supply_chain_risk, htbl]
  · simp [calculate_company_supply_chain_risk, htbl, company_specific_factors, npMean]
    norm_num

/-- Witness for C10 at the concrete sector `Retail`. -/
theorem C10_supply_chain_default_sector_witness :
    calculate_company_supply_chain_risk ("Retail") = company_specific_factors ∧
    npMean ((calculate_company_supply_chain_risk ("Retail")).map Prod.snd) = 0.55 :=
  C10_supply_chain_default_sector ("Retail") (by decide) (by decide) (by decide)

/-- C2, counterexample: the supply chain category is not computed by
scaling a fixed base factor table with a per-sector multiplier and
clamping — no base table and multiplier function reproduce
`calculate_company_supply_chain_risk`, whose mappings for Manufacturing
(eight entries) and Retail (four entries) even have different key sets. -/
theorem C2_cex_supply_chain_not_scaled :
    ¬ ∃ (base : List (String × ℚ)) (mult : String → ℚ),
      ∀ sector : String, calculate_company_supply_chain_risk sector =
        base.map (fun p => (p.1, min 1.0 (p.2 * mult sector))) := by
  rintro ⟨base, mult, h⟩
  have h1 := congrArg List.length (h ("Manufacturing"))
  have h2 := congrArg List.length (h ("Retail"))
  simp [calculate_company_supply_chain_risk, lookupD, analyze_supply_chain_dynamics,
    manufacturing_metrics, company_specific_factors] at h1 h2
  omega

/-- C2, amended: the geopolitical and capital flow mappings are the base
table scaled by the sector multiplier (default `1.0`) and capped with
`min 1`, and every value of all three sector-adjusted mappings lies in
`[0,1]`; scaling either base table by any positive multiplier also stays
in `[0,1]`.  The supply chain mapping is instead the sector's metric
table merged with the fixed company factors (see the counterexample). -/
theorem C2_amended_adjusted_scores_bounds (sector : String) (m : ℚ) (hm : 0 < m) :
    (∀ p ∈ calculate_company_geopolitical_risk sector, 0 ≤ p.2 ∧ p.2 ≤ 1) ∧
    (∀ p ∈ calculate_company_capital_flow_risk sector, 0 ≤ p.2 ∧ p.2 ≤ 1) ∧
    (∀ p ∈ calculate_company_supply_chain_risk sector, 0 ≤ p.2 ∧ p.2 ≤ 1) ∧
    (∀ p ∈ calculate_geopolitical_risk_score.map (fun q => (q.1, min 1.0 (q.2 * m))),
      0 ≤ p.2 ∧ p.2 ≤ 1) ∧
    (∀ p ∈ evaluate_capital_flows.map (fun q => (q.1, min 1.0 (q.2 * m))),
      0 ≤ p.2 ∧ p.2 ≤ 1) := by
  refine ⟨?_, ?_, ?_, ?_, ?_⟩
  · exact scaled_clamped_bounds _ _ (geo_adjustment_pos sector) geo_base_nonneg
  · exact scaled_clamped_bounds _ _ (capital_adjustment_pos sector) capital_base_nonneg
  · intro p hp
    rw [calculate_company_supply_chain_risk, List.mem_append] at hp
    rcases hp with hp | hp
    · have hmem := lookupD_eq_or_mem analyze_supply_chain_dynamics sector []
      revert hp hmem
      generalize lookupD analyze_supply_chain_dynamics sector [] = tbl
      intro hp hmem
      rcases hmem with h | h
      · rw [h] at hp
        simp at hp
      · simp [analyze_supply_chain_dynamics] at h
        rcases h with h | h | h <;> rw [h] at hp <;>
          simp [manufacturing_metrics, services_metrics, energy_metrics] at hp <;>
          rcases hp with h' | h' | h' | h' <;> rw [h'] <;> norm_num
    · simp [company_specific_factors] at hp
      rcases hp with h' | h' | h' | h' <;> rw [h'] <;> norm_num
  · exact scaled_clamped_bounds _ _ hm geo_base_nonneg
  · exact scaled_clamped_bounds _ _ hm capital_base_nonneg

/-- Witness for the amended C2 at sector `Technology`, multiplier `1/2`. -/
theorem C2_amended_adjusted_scores_bounds_witness :
    (0 : ℚ) < 1/2 ∧
    ((∀ p ∈ calculate_company_geopolitical_risk ("Technology"), 0 ≤ p.2 ∧ p.2 ≤ 1) ∧
     (∀ p ∈ calculate_company_capital_flow_risk ("Technology"), 0 ≤ p.2 ∧ p.2 ≤ 1) ∧
     (∀ p ∈ calculate_company_supply_chain_risk ("Technology"), 0 ≤ p.2 ∧ p.2 ≤ 1) ∧
     (∀ p ∈ calculate_geopolitical_risk_score.map (fun q => (q.1, min 1.0 (q.2 * (1/2)))),
       0 ≤ p.2 ∧ p.2 ≤ 1) ∧
     (∀ p ∈ evaluate_capital_flows.map (fun q => (q.1, min 1.0 (q.2 * (1/2)))),
       0 ≤ p.2 ∧ p.2 ≤ 1)) :=
  ⟨by norm_num, C2_amended_adjusted_scores_bounds ("Technology") (1/2) (by norm_num)⟩

/-- C3: the overall score is the `0.4 / 0.3 / 0.3` weighted combination
of the three category means, and lies in `[0,1]` whenever every input
score does (the pipeline always passes non-empty mappings). -/
theorem C3_overall_weighted_mean (geo supply capital : List (String × ℚ))
    (hg : geo ≠ []) (hs : supply ≠ []) (hc : capital ≠ [])
    (hgb : ∀ p ∈ geo, 0 ≤ p.2 ∧ p.2 ≤ 1)
    (hsb : ∀ p ∈ supply, 0 ≤ p.2 ∧ p.2 ≤ 1)
    (hcb : ∀ p ∈ capital, 0 ≤ p.2 ∧ p.2 ≤ 1) :
    (generate_company_recommendation geo supply capital).overall_risk_score =
      0.4 * npMean (geo.map Prod.snd) + 0.3 * npMean (supply.map Prod.snd) +
      0.3 * npMean (capital.map Prod.snd) ∧
    0 ≤ (generate_company_recommendation geo supply capital).overall_risk_score ∧
    (generate_company_recommendation geo supply capital).overall_risk_score ≤ 1 := by
  have mg := npMean_bounds (geo.map Prod.snd) (by simpa using hg)
    (by intro x hx; simp only [List.mem_map] at hx; obtain ⟨p, hp, rfl⟩ := hx; exact hgb p hp)
  have ms := npMean_bounds (supply.map Prod.snd) (by simpa using hs)
    (by intro x hx; simp only [List.mem_map] at hx; obtain ⟨p, hp, rfl⟩ := hx; exact hsb p hp)
  have mc := npMean_bounds (capital.map Prod.snd) (by simpa using hc)
    (by intro x hx; simp only [List.mem_map] at hx; obtain ⟨p, hp, rfl⟩ := hx; exact hcb p hp)
  have e : (generate_company_recommendation geo supply capital).overall_risk_score =
      npMean (geo.map Prod.snd) * 0.4 + npMean (supply.map Prod.snd) * 0.3 +
      npMean (capital.map Prod.snd) * 0.3 := rfl
  rw [e]
  refine ⟨by ring, ?_, ?_⟩
  · linarith [mg.1, ms.1, mc.1]
  · linarith [mg.2, ms.2, mc.2]

/-- Witness for C3 on three concrete singleton mappings. -/
theorem C3_overall_weighted_mean_witness :
    (generate_company_recommendation [(("a"), 0.5)] [(("b"), 0.5)] [(("c"), 0.5)]).overall_risk_score =
      0.4 * npMean ([(("a"), (0.5 : ℚ))].map Prod.snd) +
      0.3 * npMean ([(("b"), (0.5 : ℚ))].map Prod.snd) +
      0.3 * npMean ([(("c"), (0.5 : ℚ))].map Prod.snd) ∧
    0 ≤ (generate_company_recommendation [(("a"), 0.5)] [(("b"), 0.5)] [(("c"), 0.5)]).overall_risk_score ∧
    (generate_company_recommendation [(("a"), 0.5)] [(("b"), 0.5)] [(("c"), 0.5)]).overall_risk_score ≤ 1 :=
  C3_overall_weighted_mean _ _ _ (by decide) (by decide) (by decide)
    (by intro p hp; simp at hp; rw [hp]; norm_num)
    (by intro p hp; simp at hp; rw [hp]; norm_num)
    (by intro p hp; simp at hp; rw [hp]; norm_num)

/-- The overall score of the recommendation, unfolded. -/
theorem gen_overall_eq (geo supply capital : List (String × ℚ)) :
    (generate_company_recommendation geo supply capital).overall_risk_score =
      npMean (geo.map Prod.snd) * 0.4 + npMean (supply.map Prod.snd) * 0.3 +
      npMean (capital.map Prod.snd) * 0.3 := rfl

/-- The label of the recommendation, as the threshold chain on the
overall score. -/
theorem gen_label_eq (geo supply capital : List (String × ℚ)) :
    (generate_company_recommendation geo supply capital).label =
      (if (generate_company_recommendation geo supply capital).overall_risk_score < 0.4
        then ("Strong Buy")
        else if (generate_company_recommendation geo supply capital).overall_risk_score < 0.6
        then ("Buy")
        else if (generate_company_recommendation geo supply capital).overall_risk_score < 0.8
        then ("Hold") else ("Sell")) := rfl

/-- The confidence of the recommendation, as the threshold chain on the
overall score. -/
theorem gen_confidence_eq (geo supply capital : List (String × ℚ)) :
    (generate_company_recommendation geo supply capital).confidence =
      (if (generate_company_recommendation geo supply capital).overall_risk_score < 0.4
        then ("High")
        else if (generate_company_recommendation geo supply capital).overall_risk_score < 0.6
        then ("Medium")
        else if (generate_company_recommendation geo supply capital).overall_risk_score < 0.8
        then ("Medium") else ("High")) := rfl

/-- The insight list of the recommendation, unfolded. -/
theorem gen_insights_eq (geo supply capital : List (String × ℚ)) :
    (generate_company_recommendation geo supply capital).key_insights =
      (if npMean (geo.map Prod.snd) > 0.7
        then [("High geopolitical risk exposure")] else []) ++
      (if npMean (supply.map Prod.snd) > 0.7
        then [("Supply chain vulnerabilities identified")] else []) ++
      (if npMean (capital.map Prod.snd) > 0.7
        then [("Sensitive to capital flow changes")] else []) := rfl

/-- On three singleton mappings carrying `x` the overall score is `x`. -/
theorem recAt_overall (x : ℚ) : (recAt x).overall_risk_score = x := by
  rw [recAt, gen_overall_eq]
  simp [npMean]
  ring

/-- The label on singleton mappings is the threshold chain on `x`. -/
theorem recAt_label (x : ℚ) : (recAt x).label =
    (if x < 0.4 then ("Strong Buy") else if x < 0.6 then ("Buy")
     else if x < 0.8 then ("Hold") else ("Sell")) := by
  rw [recAt, gen_label_eq]
  rw [show (generate_company_recommendation [(("g"), x)] [(("s"), x)] [(("c"), x)]).overall_risk_score = x from recAt_overall x]

/-- The confidence on singleton mappings is the threshold chain on `x`. -/
theorem recAt_confidence (x : ℚ) : (recAt x).confidence =
    (if x < 0.4 then ("High") else if x < 0.6 then ("Medium")
     else if x < 0.8 then ("Medium") else ("High")) := by
  rw [recAt, gen_confidence_eq]
  rw [show (generate_company_recommendation [(("g"), x)] [(("s"), x)] [(("c"), x)]).overall_risk_score = x from recAt_overall x]

/-- C4: the recommendation label and confidence follow the closed,
non-overlapping thresholds on the overall score, and the label rank is
monotone in the overall score. -/
theorem C4_thresholds_and_monotonicity (x y : ℚ) :
    (x < 0.4 → (recAt x).label = "Strong Buy" ∧ (recAt x).confidence = "High") ∧
    (0.4 ≤ x → x < 0.6 → (recAt x).label = "Buy" ∧ (recAt x).confidence = "Medium") ∧
    (0.6 ≤ x → x < 0.8 → (recAt x).label = "Hold" ∧ (recAt x).confidence = "Medium") ∧
    (0.8 ≤ x → (recAt x).label = "Sell" ∧ (recAt x).confidence = "High") ∧
    (x ≤ y → labelRank (recAt x).label ≤ labelRank (recAt y).label) := by
  refine ⟨?_, ?_, ?_, ?_, ?_⟩
  · intro h
    rw [recAt_label, recAt_confidence, if_pos h, if_pos h]
    exact ⟨rfl, rfl⟩
  · intro h1 h2
    rw [recAt_label, recAt_confidence, if_neg (not_lt.mpr h1), if_pos h2,
      if_neg (not_lt.mpr h1), if_pos h2]
    exact ⟨rfl, rfl⟩
  · intro h1 h2
    rw [recAt_label, recAt_confidence, if_neg (not_lt.mpr (by linarith)),
      if_neg (not_lt.mpr h1), if_pos h2, if_neg (not_lt.mpr (by linarith)),
      if_neg (not_lt.mpr h1), if_pos h2]
    exact ⟨rfl, rfl⟩
  · intro h
    rw [recAt_label, recAt_confidence, if_neg (not_lt.mpr (by linarith)),
      if_neg (not_lt.mpr (by linarith)), if_neg (not_lt.mpr h),
      if_neg (not_lt.mpr (by linarith)), if_neg (not_lt.mpr (by linarith)),
      if_neg (not_lt.mpr h)]
    exact ⟨rfl, rfl⟩
  · intro hxy
    rw [recAt_label x, recAt_label y]
    split_ifs <;> simp [labelRank] <;> linarith

/-- Witness for C4 at the concrete scores `0.3 ≤ 0.9`. -/
theorem C4_thresholds_and_monotonicity_witness :
    ((recAt 0.3).label = "Strong Buy" ∧ (recAt 0.3).confidence = "High") ∧
    ((recAt 0.9).label = "Sell" ∧ (recAt 0.9).confidence = "High") ∧
    labelRank (recAt 0.3).label ≤ labelRank (recAt 0.9).label :=
  ⟨(C4_thresholds_and_monotonicity 0.3 0.9).1 (by norm_num),
   (C4_thresholds_and_monotonicity 0.9 0.9).2.2.2.1 (by norm_num),
   (C4_thresholds_and_monotonicity 0.3 0.9).2.2.2.2 (by norm_num)⟩

/-- C5: the insight flags appear exactly when the corresponding category
average exceeds `0.7`, in the fixed geo / supply / capital order with no
flag twice (the list is a deduplicated sublist of the three flags, and
can be empty); with all three averages `0.9` the result is `Sell` with
`High` confidence and all three flags. -/
theorem C5_insight_flags (geo supply capital : List (String × ℚ)) :
    ((("High geopolitical risk exposure") ∈
        (generate_company_recommendation geo supply capital).key_insights) ↔
      npMean (geo.map Prod.snd) > 0.7) ∧
    ((("Supply chain vulnerabilities identified") ∈
        (generate_company_recommendation geo supply capital).key_insights) ↔
      npMean (supply.map Prod.snd) > 0.7) ∧
    ((("Sensitive to capital flow changes") ∈
        (generate_company_recommendation geo supply capital).key_insights) ↔
      npMean (capital.map Prod.snd) > 0.7) ∧
    List.Sublist (generate_company_recommendation geo supply capital).key_insights
      [("High geopolitical risk exposure"), ("Supply chain vulnerabilities identified"),
       ("Sensitive to capital flow changes")] ∧
    (generate_company_recommendation geo supply capital).key_insights.Nodup ∧
    (generate_company_recommendation [(("g"), 0.9)] [(("s"), 0.9)] [(("c"), 0.9)]).label
      = "Sell" ∧
    (generate_company_recommendation [(("g"), 0.9)] [(("s"), 0.9)] [(("c"), 0.9)]).confidence
      = "High" ∧
    (generate_company_recommendation [(("g"), 0.9)] [(("s"), 0.9)] [(("c"), 0.9)]).key_insights
      = [("High geopolitical risk exposure"), ("Supply chain vulnerabilities identified"),
         ("Sensitive to capital flow changes")] ∧
    (generate_company_recommendation [(("g"), 0.2)] [(("s"), 0.2)] [(("c"), 0.2)]).key_insights
      = [] := by
  have hsell : (generate_company_recommendation [(("g"), 0.9)] [(("s"), 0.9)] [(("c"), 0.9)]).label = "Sell" := by
    rw [gen_label_eq, gen_overall_eq]
    norm_num [npMean]
  have hhigh : (generate_company_recommendation [(("g"), 0.9)] [(("s"), 0.9)] [(("c"), 0.9)]).confidence = "High" := by
    rw [gen_confidence_eq, gen_overall_eq]
    norm_num [npMean]
  have hall : (generate_company_recommendation [(("g"), 0.9)] [(("s"), 0.9)] [(("c"), 0.9)]).key_insights
      = [("High geopolitical risk exposure"), ("Supply chain vulnerabilities identified"),
         ("Sensitive to capital flow changes")] := by
    rw [gen_insights_eq]
    norm_num [npMean]
  have hempty : (generate_company_recommendation [(("g"), 0.2)] [(("s"), 0.2)] [(("c"), 0.2)]).key_insights = [] := by
    rw [gen_insights_eq]
    norm_num [npMean]
  rw [gen_insights_eq]
  refine ⟨?_, ?_, ?_, ?_, ?_, hsell, hhigh, hall, hempty⟩ <;>
    by_cases hg : npMean (geo.map Prod.snd) > 0.7 <;>
    by_cases hs : npMean (supply.map Prod.snd) > 0.7 <;>
    by_cases hc : npMean (capital.map Prod.snd) > 0.7 <;>
    simp [hg, hs, hc]

/-- The alias loop returns the second component of the first matching
table entry, in table iteration order. -/
theorem aliasLookup_eq_find (q : List Char) (tbl : List (String × String)) :
    aliasLookup q tbl = (tbl.find? (fun p => matchesKey q p.1)).map Prod.snd := by
  induction tbl with
  | nil => rfl
  | cons p rest ih =>
    rcases p with ⟨k, v⟩
    cases h : matchesKey q k
    · simp [aliasLookup, List.find?, h, ih]
    · simp [aliasLookup, List.find?, h]

/-- A head entry whose key matches settles the alias loop at once. -/
theorem aliasLookup_head_match (q : List Char) (k : String) (v : String)
    (rest : List (String × String)) (h : matchesKey q k = true) :
    aliasLookup q ((k, v) :: rest) = some v := by
  simp [aliasLookup, h]

/-- C8: ticker resolution lowercases and trims the query, then returns
the first alias entry (in table order) matching by bidirectional
substring containment, falling back on the external search; `HSBC`
resolves to `HSBC.L`, and a query matching nothing with an empty
fallback yields `none` — the explicit not-found result. -/
theorem C8_ticker_resolution :
    (∀ (search : String → List String) (name : String),
      find_company_ticker search name =
        ((uk_companies.find? (fun p => matchesKey (normalizeQuery name) p.1)).map Prod.snd
          <|> (search name).head?)) ∧
    find_company_ticker (fun _ => ([] : List String)) ("HSBC") = some ("HSBC.L") ∧
    find_company_ticker (fun _ => ([] : List String)) ("totally-unknown-xyz") = none := by
  refine ⟨?_, ?_, ?_⟩
  · intro search name
    rw [find_company_ticker, aliasLookup_eq_find]
    cases h : (uk_companies.find? (fun p => matchesKey (normalizeQuery name) p.1)).map Prod.snd <;>
      simp [h, Option.orElse]
  · decide
  · decide

/-- C6, counterexample: for the empty (or whitespace-only) company name
the pipeline does not produce an invalid-input failure: the normalised
empty query is a substring of every alias key, so resolution returns the
first entry's ticker `HSBC.L`, and with price data available the
orchestrator completes a full analysis successfully. -/
theorem C6_cex_empty_name_analyzed :
    find_company_ticker (fun _ => ([] : List String)) ("") = some ("HSBC.L") ∧
    exceptOk (analyze_company (fun q => q) (fun _ => ([] : List String))
      (fun _ => [100, 101]) ("")) = true := by
  constructor
  · decide
  · rfl

/-- C6, amended: any company name that lowercases and strips to the
empty string matches the first alias entry, so ticker resolution returns
`HSBC.L` (for any fallback), and the pipeline proceeds as if the company
were HSBC; no invalid-input failure kind exists in the code. -/
theorem C6_amended_empty_name_matches_first (search : String → List String)
    (name : String) (h : normalizeQuery name = []) :
    find_company_ticker search name = some ("HSBC.L") := by
  have hhead : uk_companies = ("hsbc", "HSBC.L") :: uk_companies.tail := rfl
  have hlook : aliasLookup [] uk_companies = some ("HSBC.L") := by
    rw [hhead]
    exact aliasLookup_head_match _ _ _ _ (by decide)
  rw [find_company_ticker, h, hlook]

/-- Witness for the amended C6 at the whitespace-only name. -/
theorem C6_amended_empty_name_matches_first_witness :
    find_company_ticker (fun _ => ([] : List String)) (" ") = some ("HSBC.L") :=
  C6_amended_empty_name_matches_first (fun _ => ([] : List String)) (" ") (by decide)

/-- C9: the orchestrator returns either one explicit failure reason or a
complete, internally consistent analysis record: on success the ticker
resolved, the data was non-empty, and every field (sector, three risk
mappings, financial metrics, recommendation) is the corresponding
pipeline stage's output; any failing step short-circuits to an error, so
no partial record is ever produced. -/
theorem C9_complete_record_or_error (sq : ℚ → ℚ) (search : String → List String)
    (fetch : String → List ℚ) (name : String) :
    (∃ msg, analyze_company sq search fetch name = .error msg) ∨
    (∃ a, analyze_company sq search fetch name = .ok a ∧
      find_company_ticker search name = some a.ticker ∧
      a.ticker ≠ "" ∧
      fetch a.ticker ≠ [] ∧
      a.company_name = name ∧
      a.sector = determine_company_sector name ∧
      a.geopolitical_risk = calculate_company_geopolitical_risk a.sector ∧
      a.supply_chain_risk = calculate_company_supply_chain_risk a.sector ∧
      a.capital_flow_risk = calculate_company_capital_flow_risk a.sector ∧
      a.price_data = fetch a.ticker ∧
      (∃ c cs, fetch a.ticker = c :: cs ∧
        a.financial_metrics = financialMetricsNE sq c cs) ∧
      a.recommendation = generate_company_recommendation a.geopolitical_risk
        a.supply_chain_risk a.capital_flow_risk) := by
  cases hf : find_company_ticker search name with
  | none =>
    left
    exact ⟨"Could not find ticker for company: " ++ name, by rw [analyze_company, hf]⟩
  | some t =>
    by_cases ht : t = ""
    · left
      refine ⟨"Could not find ticker for company: " ++ name, ?_⟩
      rw [analyze_company, hf]
      simp [ht]
    · cases hd : fetch t with
      | nil =>
        left
        refine ⟨"Could not fetch data for " ++ t, ?_⟩
        rw [analyze_company, hf]
        simp [ht, hd]
      | cons c cs =>
        right
        have hok : analyze_company sq search fetch name =
            .ok ⟨name, t, determine_company_sector name,
              calculate_company_geopolitical_risk (determine_company_sector name),
              calculate_company_supply_chain_risk (determine_company_sector name),
              calculate_company_capital_flow_risk (determine_company_sector name),
              financialMetricsNE sq c cs,
              generate_company_recommendation
                (calculate_company_geopolitical_risk (determine_company_sector name))
                (calculate_company_supply_chain_risk (determine_company_sector name))
                (calculate_company_capital_flow_risk (determine_company_sector name)),
              c :: cs⟩ := by
          rw [analyze_company, hf]
          simp only [hd]
          simp [ht, perform_company_analysis]
        exact ⟨_, hok, rfl, ht, by simp [hd], rfl, rfl, rfl, rfl, rfl, hd.symm,
          ⟨c, cs, hd, rfl⟩, rfl⟩

/-- C1, counterexample: on the flat price series `[1, 1, 1]` the return
series is `[0, 0]` with standard deviation `0`, and the Sharpe ratio of
`calculate_statistics` in `app.py` is the non-finite float `0.0/0.0`
(`none`), not `0`: the division there is unguarded. -/
theorem C1_cex_app_sharpe_nan_on_flat :
    (calculate_statistics (fun q => q) (pct_change [1, 1, 1])).map AppStats.sharpe =
      some none := by
  norm_num [pct_change, calculate_statistics, sampleStd, sampleVariance, npMean]

/-- C1, amended: on every price series whose return series has zero
(sample) standard deviation — in particular every flat series — the
guarded `calculate_financial_metrics` of the strategy module returns a
Sharpe ratio of exactly `0` and never raises, but the unguarded
`calculate_statistics` of `app.py` returns a non-finite Sharpe ratio
(`none`), not `0`. -/
theorem C1_amended_sharpe_zero_stdev (sq : ℚ → ℚ) (closes : List ℚ)
    (hsq : sq 0 = 0) (hvar : sampleVariance (pct_change closes) = some 0) :
    (∃ st, calculate_statistics sq (pct_change closes) = some st ∧ st.sharpe = none) ∧
    (∃ fm, calculate_financial_metrics sq closes = some fm ∧ fm.sharpe = 0) := by
  have hstd : sampleStd sq (pct_change closes) = some 0 := by
    rw [sampleStd, hvar]
    simp [hsq]
  have hne : pct_change closes ≠ [] := by
    intro h
    rw [h] at hvar
    simp [sampleVariance] at hvar
  have hcne : closes ≠ [] := by
    intro h
    rw [h] at hne
    exact hne rfl
  obtain ⟨c, cs, hcc⟩ : ∃ c cs, closes = c :: cs := by
    cases h : closes with
    | nil => exact absurd h hcne
    | cons a b => exact ⟨a, b, rfl⟩
  obtain ⟨r, rs, hrr⟩ : ∃ r rs, pct_change closes = r :: rs := by
    cases h : pct_change closes with
    | nil => exact absurd h hne
    | cons a b => exact ⟨a, b, rfl⟩
  constructor
  · rw [hrr] at hstd ⊢
    refine ⟨_, rfl, ?_⟩
    show (sampleStd sq (r :: rs)).bind
      (fun s => if s = 0 then none else some (npMean (r :: rs) / s * sq 252)) = none
    rw [hstd]
    simp
  · rw [hcc] at hstd ⊢
    refine ⟨_, rfl, ?_⟩
    simp only [financialMetricsNE]
    rw [hstd]
    simp

/-- Witness for the amended C1 on the flat series `[1, 1, 1]`. -/
theorem C1_amended_sharpe_zero_stdev_witness :
    sampleVariance (pct_change [(1 : ℚ), 1, 1]) = some 0 ∧
    ((∃ st, calculate_statistics (fun q => q) (pct_change [(1 : ℚ), 1, 1]) = some st ∧
        st.sharpe = none) ∧
     (∃ fm, calculate_financial_metrics (fun q => q) [(1 : ℚ), 1, 1] = some fm ∧
        fm.sharpe = 0)) :=
  ⟨by norm_num [pct_change, sampleVariance, npMean],
   C1_amended_sharpe_zero_stdev (fun q => q) [1, 1, 1] rfl
     (by norm_num [pct_change, sampleVariance, npMean])⟩

/-- A left fold with `min` never exceeds its initial value. -/
theorem foldl_min_le (xs : List ℚ) : ∀ a : ℚ, xs.foldl min a ≤ a := by
  induction xs with
  | nil => intro a; simp
  | cons x xs ih =>
    intro a
    simp only [List.foldl_cons]
    exact le_trans (ih (min a x)) (min_le_left a x)

/-- A left fold with `min` is non-negative exactly when the initial
value and every element are. -/
theorem foldl_min_nonneg_iff (xs : List ℚ) : ∀ a : ℚ,
    0 ≤ xs.foldl min a ↔ 0 ≤ a ∧ ∀ y ∈ xs, 0 ≤ y := by
  induction xs with
  | nil => intro a; simp
  | cons x xs ih =>
    intro a
    simp only [List.foldl_cons, List.mem_cons]
    rw [ih (min a x)]
    constructor
    · rintro ⟨h1, h2⟩
      rw [le_min_iff] at h1
      exact ⟨h1.1, fun y hy => hy.elim (fun e => e ▸ h1.2) (h2 y)⟩
    · rintro ⟨h1, h2⟩
      exact ⟨le_min_iff.mpr ⟨h1, h2 x (Or.inl rfl)⟩, fun y hy => h2 y (Or.inr hy)⟩

/-- Scaling by `100` commutes with a left `min` fold. -/
theorem foldl_min_map_hundred (xs : List ℚ) : ∀ a : ℚ,
    (xs.map (fun x => x * 100)).foldl min (a * 100) = (xs.foldl min a) * 100 := by
  induction xs with
  | nil => intro a; simp
  | cons x xs ih =>
    intro a
    simp only [List.map_cons, List.foldl_cons]
    have hmin : min (a * 100) (x * 100) = (min a x) * 100 := by
      rcases le_total a x with h | h
      · rw [min_eq_left h, min_eq_left (by linarith : a * 100 ≤ x * 100)]
      · rw [min_eq_right h, min_eq_right (by linarith : x * 100 ≤ a * 100)]
    rw [hmin, ih]

/-- The percent drawdown series is the fractional one scaled by `100`. -/
theorem zipWith_pct_map (l : List ℚ) : ∀ ml : List ℚ,
    List.zipWith (fun c m => (c / m - 1) * 100) l ml =
      (List.zipWith (fun c m => c / m - 1) l ml).map (fun x => x * 100) := by
  induction l with
  | nil => intro ml; simp
  | cons c cs ih =>
    intro ml
    cases ml with
    | nil => simp
    | cons m ms => simp [ih]

/-- The tail of the fractional drawdown series is pointwise non-negative
exactly when the price series, prefixed with the running maximum so far,
is non-decreasing. -/
theorem ddFrac_nonneg_iff_chain (cs : List ℚ) : ∀ m : ℚ, 0 < m →
    (∀ c ∈ cs, 0 < c) →
    ((∀ y ∈ List.zipWith (fun c mm => c / mm - 1) cs (expandingMaxFrom m cs), 0 ≤ y) ↔
      List.Chain' (· ≤ ·) (m :: cs)) := by
  induction cs with
  | nil => intro m hm hpos; simp
  | cons c cs ih =>
    intro m hm hpos
    have hc : 0 < c := hpos c (by simp)
    have hcs : ∀ x ∈ cs, 0 < x := fun x hx => hpos x (by simp [hx])
    have hmc : 0 < max m c := lt_of_lt_of_le hm (le_max_left m c)
    constructor
    · intro h
      have h1 : 0 ≤ c / max m c - 1 := by
        apply h
        simp [expandingMaxFrom, List.zipWith_cons_cons]
      have h2 : max m c ≤ c := (one_le_div hmc).mp (by linarith)
      have hmle : m ≤ c := le_trans (le_max_left m c) h2
      have hmaxeq : max m c = c := max_eq_right hmle
      rw [List.chain'_cons]
      refine ⟨hmle, ?_⟩
      refine (ih c hc hcs).mp ?_
      intro y hy
      apply h
      simp only [expandingMaxFrom, hmaxeq, List.zipWith_cons_cons, List.mem_cons]
      exact Or.inr hy
    · intro h
      rw [List.chain'_cons] at h
      obtain ⟨hmle, hch⟩ := h
      have hmaxeq : max m c = c := max_eq_right hmle
      intro y hy
      simp only [expandingMaxFrom, hmaxeq, List.zipWith_cons_cons, List.mem_cons] at hy
      rcases hy with rfl | hy
      · rw [div_self (ne_of_gt hc)]
        norm_num
      · exact (ih c hc hcs).mpr hch y hy

/-- C7, counterexample: the `'Max Drawdown (%)'` entry of
`calculate_financial_metrics` is a percentage — on `[100, 50]` it is
`-50`, while the fractional form the claim states is `-1/2`; the factor
`100` is applied inside the cited core function. -/
theorem C7_cex_drawdown_is_percent :
    ukMaxDrawdownPct [100, 50] = some (-50) ∧
    specMaxDrawdownFrac [100, 50] = some (-(1/2)) ∧
    ukMaxDrawdownPct [100, 50] ≠ specMaxDrawdownFrac [100, 50] := by
  norm_num [ukMaxDrawdownPct, specMaxDrawdownFrac, expandingMax, expandingMaxFrom,
    listMinQ, max_def, min_def]

/-- C7, amended: on every non-empty positive price series the code's max
drawdown is `100` times the spec's fraction `min_t (close_t /
running_max - 1)`; it is always `≤ 0` and is `0` exactly when the price
series is non-decreasing throughout. -/
theorem C7_amended_max_drawdown (closes : List ℚ) (hne : closes ≠ [])
    (hpos : ∀ c ∈ closes, 0 < c) :
    ∃ d, ukMaxDrawdownPct closes = some d ∧
      specMaxDrawdownFrac closes = some (d / 100) ∧
      d ≤ 0 ∧ (d = 0 ↔ List.Chain' (· ≤ ·) closes) := by
  obtain ⟨c, cs, rfl⟩ : ∃ c cs, closes = c :: cs := by
    cases h : closes with
    | nil => exact absurd h hne
    | cons a b => exact ⟨a, b, rfl⟩
  have hc : 0 < c := hpos c (by simp)
  have hcs : ∀ x ∈ cs, 0 < x := fun x hx => hpos x (by simp [hx])
  have hexp : expandingMax (c :: cs) = c :: expandingMaxFrom c cs := by
    simp [expandingMax, expandingMaxFrom]
  have hcc : c / c - 1 = 0 := by
    rw [div_self (ne_of_gt hc)]
    ring
  have hfrac : specMaxDrawdownFrac (c :: cs) =
      some ((List.zipWith (fun x mm => x / mm - 1) cs (expandingMaxFrom c cs)).foldl min 0) := by
    rw [specMaxDrawdownFrac, hexp]
    simp only [List.zipWith_cons_cons, listMinQ]
    rw [hcc]
  have hpct : ukMaxDrawdownPct (c :: cs) =
      some (((List.zipWith (fun x mm => x / mm - 1) cs (expandingMaxFrom c cs)).foldl min 0) * 100) := by
    rw [ukMaxDrawdownPct, hexp]
    simp only [List.zipWith_cons_cons, listMinQ]
    rw [zipWith_pct_map, hcc]
    norm_num
    rw [show (0 : ℚ) = 0 * 100 by norm_num]
    rw [foldl_min_map_hundred]
    norm_num
  set L := List.zipWith (fun x mm => x / mm - 1) cs (expandingMaxFrom c cs) with hL
  refine ⟨(L.foldl min 0) * 100, hpct, ?_, ?_, ?_⟩
  · rw [hfrac]
    congr 1
    field_simp
  · have h := foldl_min_le L 0
    linarith
  · constructor
    · intro h
      have hm0 : L.foldl min 0 = 0 := by linarith
      have hy : ∀ y ∈ L, 0 ≤ y := ((foldl_min_nonneg_iff L 0).mp (by rw [hm0])).2
      exact (ddFrac_nonneg_iff_chain cs c hc hcs).mp hy
    · intro h
      have hy := (ddFrac_nonneg_iff_chain cs c hc hcs).mpr h
      have h1 : 0 ≤ L.foldl min 0 := (foldl_min_nonneg_iff L 0).mpr ⟨le_refl 0, hy⟩
      have h2 := foldl_min_le L 0
      have h3 : L.foldl min 0 = 0 := le_antisymm h2 h1
      rw [h3]
      ring

/-- Witness for the amended C7 on the rising series `[1, 2]`. -/
theorem C7_amended_max_drawdown_witness :
    ∃ d, ukMaxDrawdownPct [(1 : ℚ), 2] = some d ∧
      specMaxDrawdownFrac [(1 : ℚ), 2] = some (d / 100) ∧
      d ≤ 0 ∧ (d = 0 ↔ List.Chain' (· ≤ ·) [(1 : ℚ), 2]) :=
  C7_amended_max_drawdown [1, 2] (by decide)
    (by intro c hc; fin_cases hc <;> norm_num)
